import Mathlib

/-!
Shallow embedding of the zubridge repository's state-bridge core
(`packages/tauri-backend-core`, `packages/tauri-plugin-zubridge`,
`packages/zubridge-tauri{,-v1}`, `packages/zuri`, and the example apps
`apps/tauri-example`, `apps/tauri-v1-example`).

Rust `serde_json::Value` is modelled by `Json`; machine integer casts
(`as i32`) are modelled by explicit wrapping arithmetic on `Int`.
Mutex-guarded state is modelled by explicit state passing: every command
is a pure function from the stored state (and its inputs) to a result,
the new stored state, and the list of events the code hands to
`emit` / `emit_all`.  A fallible `emit` call is modelled by an
`Option String` argument (`none` = the emit succeeded, `some e` = the
emit failed with message `e`).  Textual content of errors produced
internally by serde is abstracted into fixed strings; every error string
that appears literally in the Rust source is kept verbatim.
-/

set_option autoImplicit false

/-- Model of `serde_json::Value`.  Numbers are modelled as integers
(`serde_json` represents them as `i64`/`u64`/`f64`; the claims under
study only involve integral numbers, which serde stores exactly for
values in `[-2^63, 2^64)`). -/
inductive Json where
  | null : Json
  | bool (b : Bool) : Json
  | num (n : Int) : Json
  | str (s : String) : Json
  | arr (elems : List Json) : Json
  | obj (fields : List (String × Json)) : Json

namespace Json

/-- `Value::get` on an object: first binding for the key (serde objects
have unique keys). Non-objects have no fields. -/
def get (j : Json) (key : String) : Option Json :=
  match j with
  | .obj fields => fields.lookup key
  | _ => none

/-- `Value::as_i64`: succeeds exactly on integral numbers representable
as an `i64`. -/
def as_i64 (j : Json) : Option Int :=
  match j with
  | .num n => if -(2 ^ 63) ≤ n ∧ n < 2 ^ 63 then some n else none
  | _ => none

/-- `Value::as_bool`. -/
def as_bool (j : Json) : Option Bool :=
  match j with
  | .bool b => some b
  | _ => none

/-- `Value::is_number`. -/
def is_number (j : Json) : Bool :=
  match j with
  | .num _ => true
  | _ => false

end Json

/-- Rust's `v as i32` cast on an integer `v`: two's-complement
truncation to 32 bits. -/
def asI32 (v : Int) : Int :=
  (v + 2 ^ 31) % 2 ^ 32 - 2 ^ 31

/-- `serde_json::from_value::<i32>`: succeeds exactly on integral
numbers in the `i32` range. -/
def from_value_i32 (j : Json) : Option Int :=
  match j with
  | .num n => if -(2 ^ 31) ≤ n ∧ n < 2 ^ 31 then some n else none
  | _ => none

/-- `ZubridgeAction` (`packages/tauri-backend-core/src/lib.rs`,
`apps/tauri-v1-example/src-tauri/src/lib.rs`, and `Action` in
`packages/zubridge-tauri/src-rust/types.rs`): a `type` discriminator
string plus an optional JSON payload. -/
structure ZubridgeAction where
  action_type : String
  payload : Option Json

namespace Core

/-! Embedding of `packages/tauri-backend-core/src/lib.rs`. -/

/-- Derived `Deserialize` for the core `ZubridgeAction`, which carries
`#[serde(rename = "type")]` on `action_type`: the input must be an
object whose `"type"` field is a string; `payload` is an `Option` field,
so it defaults to `none` when absent (and JSON `null` also deserializes
to `none`); unknown fields are ignored. -/
def action_fromJson (j : Json) : Option ZubridgeAction :=
  match j with
  | .obj _ =>
    match j.get ("type") with
    | some (.str t) =>
      match j.get ("payload") with
      | none => some ⟨t, none⟩
      | some .null => some ⟨t, none⟩
      | some p => some ⟨t, some p⟩
    | _ => none
  | _ => none

/-- `ZubridgeOptions` (lines 34-44). -/
structure ZubridgeOptions where
  event_name : String
  get_state_command : String
  dispatch_command : String
  auto_emit_updates : Bool

/-- `ZubridgeOptions::default` (lines 46-55). -/
def ZubridgeOptions.default : ZubridgeOptions :=
  { event_name := "__zubridge_state_update"
    get_state_command := "__zubridge_get_initial_state"
    dispatch_command := "__zubridge_dispatch_action"
    auto_emit_updates := true }

section MutexStateManager

variable {T : Type}

/-- `MutexStateManager::get_state` (lines 163-166): lock and serialize a
clone of the stored state.  The lock always succeeds in this sequential
embedding; serialization is the supplied `toJson`. -/
def get_state (toJson : T → Json) (state : T) : Json :=
  toJson state

/-- `MutexStateManager::process_action` (lines 168-171): lock the state
and run the reducer on it in place.  The reducer is modelled in
state-passing style: it returns the `Result` together with the state
value left behind by its in-place mutations. -/
def process_action (reducer : T → ZubridgeAction → Except String Unit × T)
    (state : T) (action : ZubridgeAction) : Except String Unit × T :=
  reducer state action

/-- `MutexStateManager::set_state` (lines 173-182): deserialize first;
on failure return the error with the stored state untouched, otherwise
overwrite the stored state with the decoded value. -/
def set_state (fromJson : Json → Option T) (state : T) (new_state : Json) :
    Except String Unit × T :=
  match fromJson new_state with
  | none => (.error ("Failed to deserialize state: invalid value"), state)
  | some t => (.ok (), t)

/-- Observable outcome of one run of the core dispatch command handler:
the `Result<(), String>` returned to the caller, the stored state
afterwards, and the `(event, payload)` pairs handed to
`app_handle.emit`. -/
structure DispatchResult (T : Type) where
  result : Except String Unit
  state : T
  emitted : List (String × Json)

/-- `ZubridgeHandler::dispatch_action_handler` (lines 87-105): run
`process_action`, propagating its error with `?`; on success, when
`auto_emit_updates` is set, emit the freshly serialized state under
`event_name`.  A failed emit is only logged (`eprintln!`), so `emitErr`
influences nothing observable; the handler returns `Ok(())`. -/
def dispatch_action_handler (toJson : T → Json)
    (reducer : T → ZubridgeAction → Except String Unit × T)
    (options : ZubridgeOptions) (state : T) (action : ZubridgeAction)
    (emitErr : Option String) : DispatchResult T :=
  match process_action reducer state action with
  | (.error e, state1) => ⟨.error e, state1, []⟩
  | (.ok _, state1) =>
    if options.auto_emit_updates then
      ⟨.ok (), state1, [(options.event_name, get_state toJson state1)]⟩
    else
      ⟨.ok (), state1, []⟩

/-- The dispatch branch of `ZubridgeHandler::register_commands`
(lines 126-132): deserialize the raw message into a `ZubridgeAction`
(failure is propagated with `?` before any state is touched, message
abstracted), then invoke the dispatch handler. -/
def dispatch_command (toJson : T → Json)
    (reducer : T → ZubridgeAction → Except String Unit × T)
    (options : ZubridgeOptions) (state : T) (raw : Json)
    (emitErr : Option String) : DispatchResult T :=
  match action_fromJson raw with
  | none => ⟨.error ("invalid action"), state, []⟩
  | some action => dispatch_action_handler toJson reducer options state action emitErr

end MutexStateManager

end Core

namespace Example

/-! Embedding of `packages/tauri-backend-core/src/example.rs`. -/

/-- `ThemeState` (lines 13-16). -/
structure ThemeState where
  is_dark : Bool

/-- `AppState` (lines 7-11): `counter` is an `i32`, modelled as an
`Int` (theorems that need it carry the `i32` range as a hypothesis). -/
structure AppState where
  counter : Int
  theme : ThemeState

/-- `AppState::default` (lines 18-25). -/
def AppState.default : AppState :=
  { counter := 0, theme := { is_dark := true } }

/-- Derived `Serialize` for `AppState`: fields in declaration order. -/
def AppState.toJson (s : AppState) : Json :=
  .obj [("counter", .num s.counter),
        ("theme", .obj [("is_dark", .bool s.theme.is_dark)])]

/-- Derived `Deserialize` for `ThemeState`: an object whose `is_dark`
field is a boolean; unknown fields are ignored. -/
def ThemeState.fromJson (j : Json) : Option ThemeState :=
  match j with
  | .obj _ =>
    match j.get ("is_dark") with
    | some (.bool b) => some ⟨b⟩
    | _ => none
  | _ => none

/-- Derived `Deserialize` for `AppState`: an object with an `i32`
`counter` field and a `ThemeState` `theme` field; unknown fields are
ignored. -/
def AppState.fromJson (j : Json) : Option AppState :=
  match j with
  | .obj _ =>
    match from_value_i32 ((j.get ("counter")).getD .null) with
    | some c =>
      match ThemeState.fromJson ((j.get ("theme")).getD .null) with
      | some th => some ⟨c, th⟩
      | none => none
    | none => none
  | _ => none

/-- `app_reducer` (lines 28-91), in state-passing style: each branch
returns the `Result` and the state left behind.  Branches that fail do
so before mutating, so they return the input state; `i32` arithmetic
wraps (release-profile semantics), and `value as i32` is `asI32`.  The
serde error text interpolated in the `SET_STATE` branch is abstracted. -/
def app_reducer (state : AppState) (action : ZubridgeAction) :
    Except String Unit × AppState :=
  match action.action_type with
  | "INCREMENT_COUNTER" =>
    (.ok (), { state with counter := asI32 (state.counter + 1) })
  | "DECREMENT_COUNTER" =>
    (.ok (), { state with counter := asI32 (state.counter - 1) })
  | "SET_COUNTER" =>
    match action.payload with
    | some payload =>
      match payload.as_i64 with
      | some value => (.ok (), { state with counter := asI32 value })
      | none => (.error ("Payload for SET_COUNTER must be a number"), state)
    | none => (.error ("Missing payload for SET_COUNTER"), state)
  | "TOGGLE_THEME" =>
    (.ok (), { state with theme := { is_dark := !state.theme.is_dark } })
  | "SET_THEME" =>
    match action.payload with
    | some payload =>
      match payload.as_bool with
      | some is_dark => (.ok (), { state with theme := { is_dark := is_dark } })
      | none => (.error ("Payload for SET_THEME must be a boolean"), state)
    | none => (.error ("Missing payload for SET_THEME"), state)
  | "SET_STATE" =>
    match action.payload with
    | some payload =>
      match AppState.fromJson payload with
      | some new_state => (.ok (), new_state)
      | none => (.error ("Failed to deserialize state: invalid value"), state)
    | none => (.error ("Missing payload for SET_STATE"), state)
  | t => (.error ("Unknown action type: " ++ t), state)

end Example

namespace TauriExample

/-! Embedding of `apps/tauri-example/src-tauri/src/lib.rs`.  Its
`AppState`/`ThemeState` structs are field-for-field identical to those
of `example.rs`, so `Example.AppState` is reused. -/

open Example

/-- `CounterAction` (lines 36-52): an internally tagged enum
(`#[serde(tag = "type")]`) with renamed variants; `SetCounter` carries a
defaulted `i32` `payload` field. -/
inductive CounterAction where
  | Increment
  | Decrement
  | Reset
  | ToggleTheme
  | SetCounter (payload : Int)

/-- Derived `Deserialize` for `CounterAction`: the input must be an
object; the `"type"` field selects the variant; for `SetCounter` the
`payload` field must decode as an `i32` when present and defaults to `0`
when absent; other fields are ignored. -/
def CounterAction.fromJson (j : Json) : Option CounterAction :=
  match j with
  | .obj _ =>
    match j.get ("type") with
    | some (.str t) =>
      if t = "COUNTER:INCREMENT" then some .Increment
      else if t = "COUNTER:DECREMENT" then some .Decrement
      else if t = "COUNTER:RESET" then some .Reset
      else if t = "THEME:TOGGLE" then some .ToggleTheme
      else if t = "COUNTER:SET" then
        match j.get ("payload") with
        | none => some (.SetCounter 0)
        | some p =>
          match from_value_i32 p with
          | some v => some (.SetCounter v)
          | none => none
      else none
    | _ => none
  | _ => none

/-- `app_reducer` (lines 55-75): total function on parsed actions. -/
def app_reducer (state : AppState) (action : CounterAction) : AppState :=
  match action with
  | .Increment => { state with counter := asI32 (state.counter + 1) }
  | .Decrement => { state with counter := asI32 (state.counter - 1) }
  | .Reset => { state with counter := 0 }
  | .ToggleTheme => { state with theme := { is_dark := !state.theme.is_dark } }
  | .SetCounter payload => { state with counter := payload }

/-- Display text of `ActionError::ParseError` (lines 95, 103): the
interpolated serde diagnostic is abstracted. -/
def parse_error_text : String :=
  "Failed to parse action: invalid action"

/-- The failure response built in lines 216-231: an object with the
unchanged serialized state, `success: false`, and the error message. -/
def error_response (state : AppState) (msg : String) : Json :=
  .obj [("state", AppState.toJson state),
        ("success", .bool false),
        ("error", .str msg)]

/-- `AppStateManager::dispatch_action` (lines 115-233): try to parse
the raw action as a `CounterAction` and apply `app_reducer`; if parsing
fails, a manual fallback handles `COUNTER:SET`.  On that fallback path
the guard taken at line 174 (`let state = self.state.lock().unwrap()`)
is still alive when line 191 locks the same non-reentrant
`std::sync::Mutex` again, so once a numeric payload reaches it the call
never returns normally (`lock` deadlocks or panics on re-entry): the
truncation/0-coercion computed at line 182 is never committed and no
response is produced.  That path is modelled as `none`; every path that
does return is `some (response, new stored state)`.  Non-`COUNTER:SET`
parse failures produce the structured failure response with the state
unchanged. -/
def dispatch_action (state : AppState) (action : Json) :
    Option (Json × AppState) :=
  match CounterAction.fromJson action with
  | some counter_action =>
    let new_state := app_reducer state counter_action
    some (AppState.toJson new_state, new_state)
  | none =>
    match action.get ("type") with
    | some (.str t) =>
      if t = "COUNTER:SET" then
        match action.get ("payload") with
        | some payload =>
          if payload.is_number then
            none
          else some (error_response state parse_error_text, state)
        | none => some (error_response state parse_error_text, state)
      else some (error_response state parse_error_text, state)
    | _ => some (error_response state parse_error_text, state)

end TauriExample

namespace Plugin

/-! Embedding of `packages/tauri-plugin-zubridge/src/{models.rs,desktop.rs}`. -/

/-- Derived `Deserialize` for the plugin's `ZubridgeAction`
(`models.rs` lines 7-13).  Unlike every other variant in the
repository, this declaration has no `#[serde(rename = "type")]`, so the
wire field name is `action_type`. -/
def action_fromJson (j : Json) : Option ZubridgeAction :=
  match j with
  | .obj _ =>
    match j.get ("action_type") with
    | some (.str t) =>
      match j.get ("payload") with
      | none => some ⟨t, none⟩
      | some .null => some ⟨t, none⟩
      | some p => some ⟨t, some p⟩
    | _ => none
  | _ => none

/-- Default plugin options (`models.rs` lines 22-28). -/
def default_event_name : String := "zubridge://state-update"

/-- The plugin's `Error` type as used in `desktop.rs` (its defining
file is not part of the sources; the two constructors are those
constructed there). -/
inductive Error where
  | StateError (msg : String)
  | EmitError (msg : String)

/-- Observable outcome of `Zubridge::dispatch_action`: the `Result`
returned to the caller, the state manager's state afterwards, and the
events handed to `emit`. -/
structure PluginDispatchResult (S : Type) where
  result : Except Error Json
  state : S
  emitted : List (String × Json)

/-- `Zubridge::dispatch_action` (`desktop.rs` lines 45-70): re-encode
the action as `{"type": ..., "payload": ...}` (a `None` payload
serializes as `null`), run the managed `StateManager`'s
`dispatch_action` under the mutex, drop the lock, then emit the
returned value under `event_name`; a failed emit is propagated with `?`
as `Error::EmitError` after the state change already happened.  The
state manager is passed as its dispatch function over a state type
`S`. -/
def dispatch_action {S : Type} (sm_dispatch : S → Json → Json × S)
    (event_name : String) (state : S) (action : ZubridgeAction)
    (emitErr : Option String) : PluginDispatchResult S :=
  let action_json := Json.obj [("type", .str action.action_type),
                               ("payload", (action.payload).getD .null)]
  let r := sm_dispatch state action_json
  match emitErr with
  | some e => ⟨.error (.EmitError e), r.2, [(event_name, r.1)]⟩
  | none => ⟨.ok r.1, r.2, [(event_name, r.1)]⟩

/-- `Zubridge::dispatch_action` (`desktop.rs` lines 45-70) composed
with a state manager whose `dispatch_action` may fail to return
(modelled by `Option`, with `none` for a call that never returns, such
as the tauri-example manager's re-entrant lock path).  While the state
manager call never returns, the command never completes: nothing is
emitted and no result is produced (`none`).  When it does return, the
behavior is exactly that of `dispatch_action` above. -/
def dispatch_action_opt {S : Type} (sm_dispatch : S → Json → Option (Json × S))
    (event_name : String) (state : S) (action : ZubridgeAction)
    (emitErr : Option String) : Option (PluginDispatchResult S) :=
  let action_json := Json.obj [("type", .str action.action_type),
                               ("payload", (action.payload).getD .null)]
  match sm_dispatch state action_json with
  | none => none
  | some r =>
    match emitErr with
    | some e => some ⟨.error (.EmitError e), r.2, [(event_name, r.1)]⟩
    | none => some ⟨.ok r.1, r.2, [(event_name, r.1)]⟩

end Plugin

namespace V1Example

/-! Embedding of `apps/tauri-v1-example/src-tauri/src/lib.rs`. -/

/-- `CounterState` (lines 14-17): a single `i32` counter. -/
structure CounterState where
  counter : Int

/-- Derived `Serialize` for `CounterState`. -/
def CounterState.toJson (s : CounterState) : Json :=
  .obj [("counter", .num s.counter)]

/-- Observable outcome of one `__zubridge_dispatch_action` command. -/
structure V1DispatchResult where
  result : Except String Unit
  state : CounterState
  emitted : List (String × Json)

/-- `__zubridge_dispatch_action` (lines 67-148): lock the state and
match on the action type; payload errors `return Err` before any
mutation (skipping the emit); an unknown action type falls through to
the catch-all arm, which only logs — the `return Err` there is
commented out, so it is a silent no-op.  After the match, the current
state is cloned, the lock dropped, and a state-update event emitted; a
failed emit (and the tray-menu update that follows) is only logged. -/
def __zubridge_dispatch_action (state : CounterState) (action : ZubridgeAction)
    (emitErr : Option String) : V1DispatchResult :=
  let step : Except String CounterState :=
    match action.action_type with
    | "INCREMENT_COUNTER" => .ok { counter := asI32 (state.counter + 1) }
    | "DECREMENT_COUNTER" => .ok { counter := asI32 (state.counter - 1) }
    | "ADD_TO_COUNTER" =>
      match action.payload with
      | some payload =>
        match from_value_i32 payload with
        | some value => .ok { counter := asI32 (state.counter + value) }
        | none => .error ("Invalid payload for ADD_TO_COUNTER: Expected an integer.")
      | none => .error ("Missing payload for ADD_TO_COUNTER.")
    | "SET_COUNTER" =>
      match action.payload with
      | some payload =>
        match from_value_i32 payload with
        | some value => .ok { counter := value }
        | none => .error ("Invalid payload for SET_COUNTER: Expected an integer.")
      | none => .error ("Missing payload for SET_COUNTER.")
    | "RESET_COUNTER" => .ok { counter := 0 }
    | _ => .ok state
  match step with
  | .error e => ⟨.error e, state, []⟩
  | .ok new_state =>
    ⟨.ok (), new_state,
     [(("__zubridge_state_update"), CounterState.toJson new_state)]⟩

end V1Example

namespace ZubridgeTauri

/-! Embedding of `packages/zubridge-tauri/src-rust/commands.rs`.  The
managed state is a bare `Mutex<serde_json::Value>`; `Action`
(`types.rs`) has the same shape as `ZubridgeAction` (with the
`type` rename), so that structure is reused. -/

/-- `get_state` (lines 4-15): clone and return the stored value. -/
def get_state (state : Json) : Except String Json × Json :=
  (.ok state, state)

/-- `set_state` (lines 17-26): overwrite the stored value with the
argument; no validation happens because the stored state is itself a
`serde_json::Value`. -/
def set_state (state : Json) (new_state : Json) : Except String Unit × Json :=
  (.ok (), new_state)

/-- `dispatch` (lines 28-32): re-emit the action as the
`zubridge-tauri:action` event; the stored state is never touched. -/
def dispatch (state : Json) (action : ZubridgeAction) (emitErr : Option String) :
    Except String Unit × Json × List (String × ZubridgeAction) :=
  (match emitErr with
   | some e => .error e
   | none => .ok (),
   state, [(("zubridge-tauri:action"), action)])

end ZubridgeTauri

namespace ZubridgeTauriV1

/-! Embedding of `packages/zubridge-tauri-v1/src-rust/commands.rs`. -/

/-- `get_state` (lines 3-14). -/
def get_state (state : Json) : Except String Json × Json :=
  (.ok state, state)

/-- `set_state` (lines 16-25). -/
def set_state (state : Json) (new_state : Json) : Except String Unit × Json :=
  (.ok (), new_state)

/-- `dispatch` (lines 27-31): `emit_all` of the action under
`zubridge-tauri-v1:action`; the stored state is never touched. -/
def dispatch (state : Json) (action : ZubridgeAction) (emitErr : Option String) :
    Except String Unit × Json × List (String × ZubridgeAction) :=
  (match emitErr with
   | some e => .error e
   | none => .ok (),
   state, [(("zubridge-tauri-v1:action"), action)])

end ZubridgeTauriV1

namespace Zuri

/-! Embedding of `packages/zuri/src-rust/commands.rs`. -/

/-- `get_state` (lines 3-14). -/
def get_state (state : Json) : Except String Json × Json :=
  (.ok state, state)

/-- `set_state` (lines 16-25). -/
def set_state (state : Json) (new_state : Json) : Except String Unit × Json :=
  (.ok (), new_state)

/-- `dispatch` (lines 27-31): `emit_all` of the action under
`zuri:action`; the stored state is never touched. -/
def dispatch (state : Json) (action : ZubridgeAction) (emitErr : Option String) :
    Except String Unit × Json × List (String × ZubridgeAction) :=
  (match emitErr with
   | some e => .error e
   | none => .ok (),
   state, [(("zuri:action"), action)])

end Zuri

/-! ## Helper lemmas -/

/-- Every failing branch of `Example.app_reducer` returns before
mutating, so the state it leaves behind is its input state. -/
theorem app_reducer_error_preserves (s : Example.AppState) (a : ZubridgeAction)
    (e : String) (h : (Example.app_reducer s a).1 = .error e) :
    (Example.app_reducer s a).2 = s := by
  revert h
  unfold Example.app_reducer
  split <;> intro h <;> (repeat' split at h) <;> simp_all

/-- Serializing an `AppState` whose counter is in the `i32` range and
deserializing it again recovers the same value. -/
theorem appState_fromJson_toJson (t : Example.AppState)
    (h1 : -(2 ^ 31) ≤ t.counter) (h2 : t.counter < 2 ^ 31) :
    Example.AppState.fromJson (Example.AppState.toJson t) = some t := by
  obtain ⟨c, ⟨d⟩⟩ := t
  simp only [Example.AppState.counter] at h1 h2
  norm_num at h1 h2
  simp [Example.AppState.fromJson, Example.AppState.toJson, Json.get, List.lookup,
    Example.ThemeState.fromJson, from_value_i32, h1, h2]

/-- The core action decoder succeeds exactly when the input has a
string `"type"` field. -/
theorem core_action_fromJson_isSome_iff (j : Json) :
    (Core.action_fromJson j).isSome ↔ ∃ s, j.get ("type") = some (.str s) := by
  cases j <;> simp [Core.action_fromJson, Json.get]
  case obj fields =>
    cases h : List.lookup ("type") fields with
    | none => simp [h]
    | some v =>
      cases v <;> simp [h]
      case str s =>
        cases hp : List.lookup ("payload") fields with
        | none => simp [hp]
        | some p => cases p <;> simp [hp]

/-- The plugin action decoder succeeds exactly when the input has a
string `"action_type"` field. -/
theorem plugin_action_fromJson_isSome_iff (j : Json) :
    (Plugin.action_fromJson j).isSome ↔ ∃ s, j.get ("action_type") = some (.str s) := by
  cases j <;> simp [Plugin.action_fromJson, Json.get]
  case obj fields =>
    cases h : List.lookup ("action_type") fields with
    | none => simp [h]
    | some v =>
      cases v <;> simp [h]
      case str s =>
        cases hp : List.lookup ("payload") fields with
        | none => simp [hp]
        | some p => cases p <;> simp [hp]

/-! ## Claims -/

/-- C1: for every dispatch of an action that the reducer rejects
(unknown action type, invalid or missing payload, or a business-rule
rejection), the stored state after the failed `process_action` equals
the stored state immediately before it, and `get_state` right after the
failure returns the same value as right before. -/
theorem C1_failed_dispatch_preserves_state (s : Example.AppState)
    (a : ZubridgeAction) (e : String)
    (h : (Core.process_action Example.app_reducer s a).1 = .error e) :
    (Core.process_action Example.app_reducer s a).2 = s ∧
    Core.get_state Example.AppState.toJson
        ((Core.process_action Example.app_reducer s a).2) =
      Core.get_state Example.AppState.toJson s := by
  have hs : (Core.process_action Example.app_reducer s a).2 = s :=
    app_reducer_error_preserves s a e h
  exact ⟨hs, by rw [hs]⟩

/-- Witness for C1 at a concrete rejected action: dispatching
`{type: "BOGUS_ACTION"}` from the default state fails and leaves the
state (and `get_state`) unchanged. -/
theorem C1_witness :
    (Core.process_action Example.app_reducer Example.AppState.default
        ⟨"BOGUS_ACTION", none⟩).1 = .error ("Unknown action type: BOGUS_ACTION") ∧
    (Core.process_action Example.app_reducer Example.AppState.default
        ⟨"BOGUS_ACTION", none⟩).2 = Example.AppState.default ∧
    Core.get_state Example.AppState.toJson
        ((Core.process_action Example.app_reducer Example.AppState.default
          ⟨"BOGUS_ACTION", none⟩).2) =
      Core.get_state Example.AppState.toJson Example.AppState.default :=
  ⟨rfl,
   (C1_failed_dispatch_preserves_state Example.AppState.default
     ⟨"BOGUS_ACTION", none⟩ ("Unknown action type: BOGUS_ACTION") rfl).1,
   (C1_failed_dispatch_preserves_state Example.AppState.default
     ⟨"BOGUS_ACTION", none⟩ ("Unknown action type: BOGUS_ACTION") rfl).2⟩

/-- C2 counterexample: the cited `ZubridgeHandler::dispatch_action_handler`
returns `Result<(), String>`: at a concrete successful dispatch it
returns the unit value `Ok(())` — not the serialized new state — and at
a concrete failed dispatch it returns only the bare error message, not
a structured value containing the current state and a success flag. -/
theorem C2_counterexample :
    (Core.dispatch_action_handler Example.AppState.toJson Example.app_reducer
        Core.ZubridgeOptions.default Example.AppState.default
        ⟨"INCREMENT_COUNTER", none⟩ none).result = .ok () ∧
    (Core.dispatch_action_handler Example.AppState.toJson Example.app_reducer
        Core.ZubridgeOptions.default Example.AppState.default
        ⟨"BOGUS_ACTION", none⟩ none).result =
      .error ("Unknown action type: BOGUS_ACTION") :=
  ⟨rfl, rfl⟩

/-- C2 (amended): every response that the tauri-example
`AppStateManager::dispatch_action` actually produces carries the
state — the serialized new state on success, or `{state,
success: false, error}` with the unchanged state and a non-empty
message on failure — but on the manual `COUNTER:SET` numeric fallback
the call re-locks the mutex it already holds and never returns, so no
response exists there at all.  The tauri-backend-core
`dispatch_action_handler` instead returns `Ok(())` on success and only
the error string on failure; neither of its responses carries the
state. -/
theorem C2_every_response_carries_state_amended :
    (∀ (st : Example.AppState) (a : Json),
       TauriExample.dispatch_action st a = none ∨
       (∃ new_state, TauriExample.dispatch_action st a =
          some (Example.AppState.toJson new_state, new_state)) ∨
       (∃ msg, msg ≠ "" ∧ TauriExample.dispatch_action st a =
          some (TauriExample.error_response st msg, st))) ∧
    (∀ (options : Core.ZubridgeOptions) (st : Example.AppState)
       (a : ZubridgeAction) (e : Option String),
       (Core.dispatch_action_handler Example.AppState.toJson Example.app_reducer
           options st a e).result = .ok () ∨
       ∃ msg, (Core.dispatch_action_handler Example.AppState.toJson Example.app_reducer
           options st a e).result = .error msg) := by
  constructor
  · intro st a
    unfold TauriExample.dispatch_action
    split
    · exact Or.inr (Or.inl ⟨_, rfl⟩)
    · split
      · split
        · split
          · split
            · exact Or.inl rfl
            · exact Or.inr (Or.inr ⟨_, by simp [TauriExample.parse_error_text], rfl⟩)
          · exact Or.inr (Or.inr ⟨_, by simp [TauriExample.parse_error_text], rfl⟩)
        · exact Or.inr (Or.inr ⟨_, by simp [TauriExample.parse_error_text], rfl⟩)
      · exact Or.inr (Or.inr ⟨_, by simp [TauriExample.parse_error_text], rfl⟩)
  · intro options st a e
    unfold Core.dispatch_action_handler
    split
    · exact Or.inr ⟨_, rfl⟩
    · split <;> exact Or.inl rfl

/-- C3 counterexample: dispatching the failing action `{type: "BOGUS"}`
through the plugin's `Zubridge::dispatch_action` (backed by the
tauri-example state manager) completes, leaves the state unchanged and
produces the structured failure response — yet a state-update
notification is still fired, carrying that failure response. -/
theorem C3_counterexample :
    Plugin.dispatch_action_opt TauriExample.dispatch_action Plugin.default_event_name
        Example.AppState.default ⟨"BOGUS", none⟩ none =
      some ⟨.ok (TauriExample.error_response Example.AppState.default
              TauriExample.parse_error_text),
            Example.AppState.default,
            [(Plugin.default_event_name,
              TauriExample.error_response Example.AppState.default
                TauriExample.parse_error_text)]⟩ :=
  rfl

/-- C3 (amended): the tauri-backend-core dispatch handler notifies
exactly after successful mutations — a failed dispatch emits nothing,
and a successful one (with `auto_emit_updates` on) emits the freshly
serialized state.  The plugin's `Zubridge::dispatch_action` instead
attempts exactly one emit on every dispatch whose state-manager call
returns, failed dispatches included; when the state-manager call never
returns (the tauri-example re-entrant lock path), the command never
completes and nothing is emitted. -/
theorem C3_notify_only_after_success_amended (options : Core.ZubridgeOptions)
    (s : Example.AppState) (a : ZubridgeAction) (e : Option String) :
    ((∃ msg, (Core.dispatch_action_handler Example.AppState.toJson Example.app_reducer
        options s a e).result = .error msg) →
      (Core.dispatch_action_handler Example.AppState.toJson Example.app_reducer
        options s a e).emitted = []) ∧
    ((Core.dispatch_action_handler Example.AppState.toJson Example.app_reducer
        options s a e).result = .ok () → options.auto_emit_updates = true →
      (Core.dispatch_action_handler Example.AppState.toJson Example.app_reducer
          options s a e).emitted =
        [(options.event_name,
          Core.get_state Example.AppState.toJson
            ((Core.dispatch_action_handler Example.AppState.toJson Example.app_reducer
              options s a e).state))]) ∧
    (∀ {S : Type} (sm_dispatch : S → Json → Option (Json × S)) (name : String)
       (st : S) (act : ZubridgeAction) (res : Plugin.PluginDispatchResult S),
       Plugin.dispatch_action_opt sm_dispatch name st act e = some res →
       res.emitted.length = 1) := by
  refine ⟨?_, ?_, ?_⟩
  · intro ⟨msg, hmsg⟩
    revert hmsg
    unfold Core.dispatch_action_handler
    split <;> intro hmsg
    · rfl
    · split at hmsg <;> simp_all
  · intro hok hauto
    revert hok
    unfold Core.dispatch_action_handler
    split <;> intro hok
    · simp_all
    · simp [hauto]
  · intro S sm_dispatch name st act res hres
    simp only [Plugin.dispatch_action_opt] at hres
    cases hsm : sm_dispatch st
        (Json.obj [(("type"), Json.str (act.action_type)),
                   (("payload"), (act.payload).getD Json.null)]) with
    | none =>
      rw [hsm] at hres
      exact absurd hres (by simp)
    | some r =>
      rw [hsm] at hres
      cases e <;> simp only [Option.some.injEq] at hres <;> rw [← hres] <;> rfl

/-- Witness for C3 (amended) at concrete dispatches: the failed
`{type: "BOGUS_ACTION"}` dispatch emits nothing; the successful
`{type: "INCREMENT_COUNTER"}` dispatch under default options emits the
new serialized state; one completed plugin dispatch attempts exactly
one emit. -/
theorem C3_witness :
    (Core.dispatch_action_handler Example.AppState.toJson Example.app_reducer
        Core.ZubridgeOptions.default Example.AppState.default
        ⟨"BOGUS_ACTION", none⟩ none).emitted = [] ∧
    (Core.dispatch_action_handler Example.AppState.toJson Example.app_reducer
        Core.ZubridgeOptions.default Example.AppState.default
        ⟨"INCREMENT_COUNTER", none⟩ none).emitted =
      [(("__zubridge_state_update"),
        Example.AppState.toJson { counter := 1, theme := { is_dark := true } })] ∧
    (⟨.ok (TauriExample.error_response Example.AppState.default
         TauriExample.parse_error_text),
      Example.AppState.default,
      [(Plugin.default_event_name,
        TauriExample.error_response Example.AppState.default
          TauriExample.parse_error_text)]⟩ :
        Plugin.PluginDispatchResult Example.AppState).emitted.length = 1 :=
  ⟨(C3_notify_only_after_success_amended Core.ZubridgeOptions.default
      Example.AppState.default ⟨"BOGUS_ACTION", none⟩ none).1
      ⟨("Unknown action type: BOGUS_ACTION"), rfl⟩,
   (C3_notify_only_after_success_amended Core.ZubridgeOptions.default
      Example.AppState.default ⟨"INCREMENT_COUNTER", none⟩ none).2.1 rfl rfl,
   (C3_notify_only_after_success_amended Core.ZubridgeOptions.default
      Example.AppState.default ⟨"BOGUS", none⟩ none).2.2
      TauriExample.dispatch_action Plugin.default_event_name
      Example.AppState.default ⟨"BOGUS", none⟩ _ rfl⟩

/-- C4 counterexample: with the plugin's `Zubridge::dispatch_action`,
a successful mutation (`{type: "COUNTER:INCREMENT"}` from the default
state) followed by a failing emit keeps the committed state change
(counter becomes 1) but changes the value returned to the caller from
the success response to `Error::EmitError` — the failure is not merely
logged. -/
theorem C4_counterexample :
    Plugin.dispatch_action_opt TauriExample.dispatch_action Plugin.default_event_name
        Example.AppState.default ⟨"COUNTER:INCREMENT", none⟩ (some ("boom")) =
      some ⟨.error (.EmitError ("boom")),
            { counter := 1, theme := { is_dark := true } },
            [(Plugin.default_event_name,
              Example.AppState.toJson { counter := 1, theme := { is_dark := true } })]⟩ :=
  rfl

/-- C4 (amended): in the tauri-backend-core handler a failed
notification publish is logged only — the entire observable outcome
(result, state, emissions) is the same as for a successful publish.
In the plugin's `Zubridge::dispatch_action` a failed publish likewise
never rolls back the committed state change, but it does replace the
success response with `Error::EmitError` for that dispatch. -/
theorem C4_notify_failure_logged_only_amended :
    (∀ (options : Core.ZubridgeOptions) (s : Example.AppState)
       (a : ZubridgeAction) (e : String),
       Core.dispatch_action_handler Example.AppState.toJson Example.app_reducer
           options s a (some e) =
         Core.dispatch_action_handler Example.AppState.toJson Example.app_reducer
           options s a none) ∧
    (∀ {S : Type} (sm_dispatch : S → Json → Json × S) (name : String)
       (st : S) (act : ZubridgeAction) (e : String),
       (Plugin.dispatch_action sm_dispatch name st act (some e)).state =
         (Plugin.dispatch_action sm_dispatch name st act none).state ∧
       (Plugin.dispatch_action sm_dispatch name st act (some e)).result =
         .error (.EmitError e)) := by
  constructor
  · intro options s a e
    rfl
  · intro S sm_dispatch name st act e
    exact ⟨rfl, rfl⟩

/-- C5 counterexample: in the tauri-v1-example command, dispatching
`{type: "BOGUS_ACTION"}` from counter 5 is a silent no-op: the command
returns success rather than a caller-visible failure (and still emits a
state update). -/
theorem C5_counterexample :
    (V1Example.__zubridge_dispatch_action ⟨5⟩ ⟨"BOGUS_ACTION", none⟩ none).result = .ok () ∧
    (V1Example.__zubridge_dispatch_action ⟨5⟩ ⟨"BOGUS_ACTION", none⟩ none).state = ⟨5⟩ ∧
    (V1Example.__zubridge_dispatch_action ⟨5⟩ ⟨"BOGUS_ACTION", none⟩ none).emitted =
      [(("__zubridge_state_update"), Json.obj [(("counter"), Json.num 5)])] :=
  ⟨rfl, rfl, rfl⟩

/-- C5 (amended): the variants disagree on unknown action types.  The
example reducer of tauri-backend-core rejects any unhandled type with
an `Unknown action type` error and leaves the state unchanged; the
tauri-v1-example dispatch command instead silently no-ops: it returns
success, leaves the state unchanged, and still emits a state update. -/
theorem C5_unknown_action_amended (t : String)
    (hv : t ∉ ["INCREMENT_COUNTER", "DECREMENT_COUNTER", "SET_COUNTER",
               "TOGGLE_THEME", "SET_THEME", "SET_STATE"])
    (hv1 : t ∉ ["INCREMENT_COUNTER", "DECREMENT_COUNTER", "ADD_TO_COUNTER",
                "SET_COUNTER", "RESET_COUNTER"]) :
    (∀ (s : Example.AppState) (p : Option Json),
       Example.app_reducer s ⟨t, p⟩ = (.error ("Unknown action type: " ++ t), s)) ∧
    (∀ (s : V1Example.CounterState) (p : Option Json) (e : Option String),
       V1Example.__zubridge_dispatch_action s ⟨t, p⟩ e =
         ⟨.ok (), s, [(("__zubridge_state_update"), V1Example.CounterState.toJson s)]⟩) := by
  constructor
  · intro s p
    unfold Example.app_reducer
    split <;> simp_all
  · intro s p e
    unfold V1Example.__zubridge_dispatch_action
    split <;> simp_all

/-- Witness for C5 (amended) at the concrete unknown type
`"BOGUS_ACTION"`. -/
theorem C5_witness :
    Example.app_reducer Example.AppState.default ⟨"BOGUS_ACTION", none⟩ =
      (.error ("Unknown action type: BOGUS_ACTION"), Example.AppState.default) ∧
    V1Example.__zubridge_dispatch_action ⟨0⟩ ⟨"BOGUS_ACTION", none⟩ none =
      ⟨.ok (), ⟨0⟩, [(("__zubridge_state_update"), Json.obj [(("counter"), Json.num 0)])]⟩ :=
  ⟨(C5_unknown_action_amended ("BOGUS_ACTION") (by decide) (by decide)).1
      Example.AppState.default none,
   (C5_unknown_action_amended ("BOGUS_ACTION") (by decide) (by decide)).2
      ⟨0⟩ none none⟩

/-- C6: `MutexStateManager::set_state` validates its input against the
state schema before replacing anything: an input that does not decode
to an `AppState` yields a deserialization error with the stored state
unchanged, while a decodable input atomically replaces the stored value
with the decoded state.  In the zubridge-tauri variant the stored state
is itself a JSON value, so every input is valid and is stored as
given. -/
theorem C6_replace_state_validates (prev : Example.AppState) (j : Json) :
    (Example.AppState.fromJson j = none →
       Core.set_state Example.AppState.fromJson prev j =
         (.error ("Failed to deserialize state: invalid value"), prev)) ∧
    (∀ t, Example.AppState.fromJson j = some t →
       Core.set_state Example.AppState.fromJson prev j = (.ok (), t)) ∧
    (∀ (st new_state : Json),
       ZubridgeTauri.set_state st new_state = (.ok (), new_state)) := by
  refine ⟨?_, ?_, fun st new_state => rfl⟩
  · intro h
    unfold Core.set_state
    simp [h]
  · intro t h
    unfold Core.set_state
    simp [h]

/-- Witness for C6 at concrete inputs: a string blob is rejected with
the prior state preserved; the serialization of the default state is
accepted and replaces the stored value. -/
theorem C6_witness :
    Core.set_state Example.AppState.fromJson Example.AppState.default
        (Json.str ("nope")) =
      (.error ("Failed to deserialize state: invalid value"), Example.AppState.default) ∧
    Core.set_state Example.AppState.fromJson Example.AppState.default
        (Example.AppState.toJson Example.AppState.default) =
      (.ok (), Example.AppState.default) :=
  ⟨(C6_replace_state_validates Example.AppState.default (Json.str ("nope"))).1 rfl,
   (C6_replace_state_validates Example.AppState.default
      (Example.AppState.toJson Example.AppState.default)).2.1
      Example.AppState.default rfl⟩

/-- C7: round-trip replace.  For every state value in the schema
(counter in the `i32` range), `set_state` of its serialization succeeds
and stores exactly that value, and `get_state` immediately after
returns a JSON value equal to the one passed in.  In the
zubridge-tauri variant the same holds verbatim for every JSON value. -/
theorem C7_round_trip_replace (t prev : Example.AppState)
    (h1 : -(2 ^ 31) ≤ t.counter) (h2 : t.counter < 2 ^ 31) :
    (Core.set_state Example.AppState.fromJson prev (Example.AppState.toJson t) =
       (.ok (), t) ∧
     Core.get_state Example.AppState.toJson t = Example.AppState.toJson t) ∧
    (∀ (st S : Json),
       ZubridgeTauri.get_state ((ZubridgeTauri.set_state st S).2) = (.ok S, S)) := by
  refine ⟨⟨?_, rfl⟩, fun st S => rfl⟩
  unfold Core.set_state
  simp [appState_fromJson_toJson t h1 h2]

/-- Witness for C7 at the default state. -/
theorem C7_witness :
    (Core.set_state Example.AppState.fromJson Example.AppState.default
        (Example.AppState.toJson Example.AppState.default) =
       (.ok (), Example.AppState.default) ∧
     Core.get_state Example.AppState.toJson Example.AppState.default =
       Example.AppState.toJson Example.AppState.default) ∧
    (∀ (st S : Json),
       ZubridgeTauri.get_state ((ZubridgeTauri.set_state st S).2) = (.ok S, S)) :=
  C7_round_trip_replace Example.AppState.default Example.AppState.default
    (by decide) (by decide)

/-- C8: in tauri-backend-core, action deserialization succeeds exactly
when the `type` field is present and is a string (payload optional),
and a malformed raw action makes the dispatch command fail fast with
the state unchanged and nothing emitted.  In the plugin's `models.rs`,
however, the `#[serde(rename = "type")]` attribute is missing, so the
boundary shape `{type: string}` is rejected there and the wire field
must instead be named `action_type` — contradicting the boundary
contract used everywhere else in the repository (including the plugin's
own `desktop.rs`, which re-serializes the action under `"type"`). -/
theorem C8_action_shape_and_field_name (j : Json) :
    ((Core.action_fromJson j).isSome ↔ ∃ s, j.get ("type") = some (Json.str s)) ∧
    Plugin.action_fromJson (Json.obj [(("type"), Json.str ("INCREMENT_COUNTER"))]) = none ∧
    ((Plugin.action_fromJson j).isSome ↔ ∃ s, j.get ("action_type") = some (Json.str s)) ∧
    Core.dispatch_command Example.AppState.toJson Example.app_reducer
        Core.ZubridgeOptions.default Example.AppState.default
        (Json.obj [(("payload"), Json.num 1)]) none =
      ⟨.error ("invalid action"), Example.AppState.default, []⟩ :=
  ⟨core_action_fromJson_isSome_iff j, rfl, plugin_action_fromJson_isSome_iff j, rfl⟩

/-- C9: in the zubridge-tauri, zubridge-tauri-v1 and zuri command
variants, `dispatch` only re-emits the action as an event and never
mutates the stored state; `get_state` does not change it either, and
only `set_state` replaces it. -/
theorem C9_dispatch_never_mutates (st : Json) (a : ZubridgeAction) (e : Option String) :
    (ZubridgeTauri.dispatch st a e).2.1 = st ∧
    (ZubridgeTauriV1.dispatch st a e).2.1 = st ∧
    (Zuri.dispatch st a e).2.1 = st ∧
    (ZubridgeTauri.dispatch st a e).2.2 = [(("zubridge-tauri:action"), a)] ∧
    (ZubridgeTauriV1.dispatch st a e).2.2 = [(("zubridge-tauri-v1:action"), a)] ∧
    (Zuri.dispatch st a e).2.2 = [(("zuri:action"), a)] ∧
    (ZubridgeTauri.get_state st).2 = st ∧
    (ZubridgeTauriV1.get_state st).2 = st ∧
    (Zuri.get_state st).2 = st ∧
    (∀ new_state : Json,
       (ZubridgeTauri.set_state st new_state).2 = new_state ∧
       (ZubridgeTauriV1.set_state st new_state).2 = new_state ∧
       (Zuri.set_state st new_state).2 = new_state) :=
  ⟨rfl, rfl, rfl, rfl, rfl, rfl, rfl, rfl, rfl, fun _ => ⟨rfl, rfl, rfl⟩⟩

/-- C10 counterexample: `2^63` is an integer outside the `i32` range
(a valid `u64` JSON number), yet the example reducer rejects the
`SET_COUNTER` dispatch carrying it instead of truncating: `as_i64`
fails on it, producing the `must be a number` error. -/
theorem C10_counterexample :
    Example.app_reducer Example.AppState.default
        ⟨"SET_COUNTER", some (Json.num (2 ^ 63))⟩ =
      (.error ("Payload for SET_COUNTER must be a number"), Example.AppState.default) := by
  unfold Example.app_reducer
  norm_num [Json.as_i64]

/-- C10 (amended): for every `SET_COUNTER` payload integer within the
`i64` range — including all of it outside the `i32` range — the example
reducer does not reject but truncates with the `as i32` cast, storing
the wrapped 32-bit value; a payload integer beyond the `i64` range is
rejected by that reducer as a non-number.  In the tauri-example variant
no truncation or 0-coercion is ever observable: a `COUNTER:SET`
dispatch with a numeric payload outside the `i32` range fails the
`CounterAction` parse, reaches the manual fallback, and there re-locks
the mutex it already holds — the call never returns, committing nothing
and producing no response. -/
theorem C10_set_counter_truncates_amended (s : Example.AppState) (v : Int) :
    (-(2 ^ 63) ≤ v → v < 2 ^ 63 →
       Example.app_reducer s ⟨"SET_COUNTER", some (Json.num v)⟩ =
         (.ok (), { s with counter := asI32 v })) ∧
    (2 ^ 63 ≤ v ∨ v < -(2 ^ 63) →
       Example.app_reducer s ⟨"SET_COUNTER", some (Json.num v)⟩ =
         (.error ("Payload for SET_COUNTER must be a number"), s)) ∧
    (v < -(2 ^ 31) ∨ 2 ^ 31 ≤ v →
       TauriExample.dispatch_action s
           (Json.obj [(("type"), Json.str ("COUNTER:SET")), (("payload"), Json.num v)]) =
         none) := by
  refine ⟨?_, ?_, ?_⟩
  · intro hlo hhi
    have hext : Json.as_i64 (Json.num v) = some v := by
      simp [Json.as_i64]
      omega
    unfold Example.app_reducer
    simp [hext]
  · intro h
    have hext : Json.as_i64 (Json.num v) = none := by
      simp [Json.as_i64]
      omega
    unfold Example.app_reducer
    simp [hext]
  · intro hout
    have h1 : from_value_i32 (Json.num v) = none := by
      simp [from_value_i32]
      omega
    unfold TauriExample.dispatch_action TauriExample.CounterAction.fromJson
    simp [Json.get, List.lookup, h1, Json.is_number]

/-- Witness for C10 (amended) at the concrete payloads `2^31` (outside
`i32`, inside `i64`: the example reducer wraps it to `-2^31`) and
`2^63` (outside `i64`: the example reducer rejects it); for the
tauri-example variant both payloads drive the dispatch onto the
never-returning re-entrant-lock path. -/
theorem C10_witness :
    Example.app_reducer Example.AppState.default
        ⟨"SET_COUNTER", some (Json.num (2 ^ 31))⟩ =
      (.ok (), { counter := -(2 ^ 31), theme := { is_dark := true } }) ∧
    Example.app_reducer Example.AppState.default
        ⟨"SET_COUNTER", some (Json.num (2 ^ 63))⟩ =
      (.error ("Payload for SET_COUNTER must be a number"), Example.AppState.default) ∧
    TauriExample.dispatch_action Example.AppState.default
        (Json.obj [(("type"), Json.str ("COUNTER:SET")), (("payload"), Json.num (2 ^ 31))]) =
      none ∧
    TauriExample.dispatch_action Example.AppState.default
        (Json.obj [(("type"), Json.str ("COUNTER:SET")), (("payload"), Json.num (2 ^ 63))]) =
      none ∧
    asI32 (2 ^ 31) = -(2 ^ 31) := by
  refine ⟨?_, ?_, ?_, ?_, by decide⟩
  · exact (C10_set_counter_truncates_amended Example.AppState.default (2 ^ 31)).1
      (by norm_num) (by norm_num)
  · exact (C10_set_counter_truncates_amended Example.AppState.default (2 ^ 63)).2.1
      (by norm_num)
  · exact (C10_set_counter_truncates_amended Example.AppState.default (2 ^ 31)).2.2
      (by norm_num)
  · exact (C10_set_counter_truncates_amended Example.AppState.default (2 ^ 63)).2.2
      (by norm_num)
